import Mathlib

/-!
# BulkPageCloner — verification development

A shallow embedding of the core logic of the BulkPageCloner Forge app:

* the title deduplication pass (`handleDuplicateNames` in
  `static/bulk-page-generator/src/BulkPageGenerator.js`),
* the title sequence generator (`generatePageTitle` in `src/index.js`),
* the bulk creation engines (`bulkGeneratePagesWithProgress` in the
  unnamed resolver module, `bulkGeneratePages` in `src/index.js`),
* the exhaustive paginated crawl (`getAllPagesOptimized`) and the
  cursor-following pagination loops (`getSpacePages`, space listing),
* template capture (`uploadTemplate`).

Remote calls are modelled by explicit oracles (functions from request data to
responses); JavaScript truthiness, `String.prototype.trim`, `%` (`Int.tmod`)
and `Math.floor` division (`Int.fdiv`) are modelled explicitly.
-/

namespace BulkPageCloner

/-! ## JavaScript string trimming -/

/-- Whitespace characters removed by `String.prototype.trim` (the common ones;
the source only ever feeds ordinary titles through `trim`). -/
def isJsWs (c : Char) : Bool :=
  c == ' ' || c == '\t' || c == '\n' || c == '\r' || c == '\x0b' || c == '\x0c'

/-- Trim on the character list: drop leading whitespace, then trailing. -/
def trimChars (l : List Char) : List Char :=
  ((l.dropWhile isJsWs).reverse.dropWhile isJsWs).reverse

/-- Model of JavaScript `s.trim()`. -/
def jsTrim (s : String) : String := String.mk (trimChars s.data)

/-- Truthiness of an optional JS string: `undefined` and `""` are falsy. -/
def jsTruthy : Option String → Bool
  | none => false
  | some s => s ≠ ""

/-! ### `trim` is idempotent -/

theorem dropWhile_fixed_iff (p : Char → Bool) (l : List Char) :
    l.dropWhile p = l ↔ l = [] ∨ ∃ a t, l = a :: t ∧ p a = false := by
  cases l with
  | nil => simp
  | cons a t =>
    by_cases h : p a
    · rw [List.dropWhile_cons_of_pos h]
      constructor
      · intro he
        have hle : (t.dropWhile p).length ≤ t.length :=
          (List.dropWhile_suffix p).sublist.length_le
        rw [he] at hle
        simp only [List.length_cons] at hle
        omega
      · rintro (h2 | ⟨a2, t2, he, hp⟩)
        · exact absurd h2 (by simp)
        · cases he; simp [h] at hp
    · rw [List.dropWhile_cons_of_neg h]
      constructor
      · intro _; exact Or.inr ⟨a, t, rfl, by simpa using h⟩
      · intro _; rfl

theorem dropWhile_idem (p : Char → Bool) (l : List Char) :
    (l.dropWhile p).dropWhile p = l.dropWhile p := by
  induction l with
  | nil => simp
  | cons a t ih =>
    by_cases h : p a
    · rw [List.dropWhile_cons_of_pos h]; exact ih
    · rw [List.dropWhile_cons_of_neg h, List.dropWhile_cons_of_neg h]

theorem dropWhile_fixed_of_prefix (p : Char → Bool) {l₁ l₂ : List Char}
    (hpre : l₁ <+: l₂) (h : l₂.dropWhile p = l₂) : l₁.dropWhile p = l₁ := by
  rw [dropWhile_fixed_iff] at h ⊢
  cases l₁ with
  | nil => exact Or.inl rfl
  | cons a t =>
    obtain ⟨s, hs⟩ := hpre
    rcases h with h | ⟨a2, t2, he, hp⟩
    · rw [← hs] at h; simp at h
    · rw [← hs] at he
      simp only [List.cons_append] at he
      exact Or.inr ⟨a, t, rfl, by injection he with h1 _; rw [h1]; exact hp⟩

theorem trimChars_idem (l : List Char) : trimChars (trimChars l) = trimChars l := by
  set p := isJsWs
  set y := l.dropWhile p with hy
  have hyFixed : y.dropWhile p = y := dropWhile_idem p l
  -- `trimChars l` is a prefix of `y`: it removes a suffix of `y`.
  have hsuf : y.reverse.dropWhile p <:+ y.reverse := List.dropWhile_suffix p
  have hpre : (y.reverse.dropWhile p).reverse <+: y := by
    have := @List.reverse_prefix Char (y.reverse.dropWhile p) y.reverse
    rw [List.reverse_reverse] at this
    exact this.mpr hsuf
  have hzFixed : (trimChars l).dropWhile p = trimChars l := by
    have : trimChars l = (y.reverse.dropWhile p).reverse := by
      simp [trimChars, ← hy]
    rw [this]
    exact dropWhile_fixed_of_prefix p hpre hyFixed
  have hrevFixed : (trimChars l).reverse.dropWhile p = (trimChars l).reverse := by
    have : (trimChars l).reverse = y.reverse.dropWhile p := by
      simp [trimChars, ← hy]
    rw [this]
    exact dropWhile_idem p y.reverse
  show ((((trimChars l).dropWhile p).reverse.dropWhile p)).reverse = trimChars l
  rw [hzFixed, hrevFixed, List.reverse_reverse]

theorem jsTrim_idem (s : String) : jsTrim (jsTrim s) = jsTrim s := by
  show String.mk (trimChars (trimChars s.data)) = String.mk (trimChars s.data)
  rw [trimChars_idem]

/-! ## Title deduplication (`handleDuplicateNames`)

Source: `static/bulk-page-generator/src/BulkPageGenerator.js`, lines 540–562.
The JS `seen` object is modelled as an association list with
most-recent-binding-first lookup (the JS code always reads a key before
overwriting it, so prepending the new binding has the same semantics). -/

/-- Lookup in the `seen` map (first binding wins). -/
def seenLookup (seen : List (String × Nat)) (k : String) : Option Nat :=
  match seen with
  | [] => none
  | (k2, v) :: rest => if k2 = k then some v else seenLookup rest k

/-- `seen[k] = v` (prepend; lookup takes the newest binding). -/
def seenSet (seen : List (String × Nat)) (k : String) (v : Nat) : List (String × Nat) :=
  (k, v) :: seen

/-- The `titles.forEach` body of `handleDuplicateNames`, with the `seen`
map threaded explicitly. -/
def dedupGo (seen : List (String × Nat)) : List String → List String
  | [] => []
  | t :: ts =>
    let tt := jsTrim t
    if tt = "" then
      "" :: dedupGo seen ts
    else
      match seenLookup seen tt with
      | none => tt :: dedupGo (seenSet seen tt 1) ts
      | some c => (tt ++ " (" ++ toString c ++ ")") :: dedupGo (seenSet seen tt (c + 1)) ts

/-- `handleDuplicateNames` from `BulkPageGenerator.js`: first occurrence of a
trimmed title is kept, the n-th repeat gets the suffix `" (n-1)"`;
blank titles pass through as `""`. -/
def handleDuplicateNames (titles : List String) : List String :=
  dedupGo [] titles

theorem dedupGo_cons_blank (seen : List (String × Nat)) (t : String) (ts : List String)
    (h : jsTrim t = "") : dedupGo seen (t :: ts) = "" :: dedupGo seen ts := by
  simp [dedupGo, h]

theorem dedupGo_cons_new (seen : List (String × Nat)) (t : String) (ts : List String)
    (h1 : jsTrim t ≠ "") (h2 : seenLookup seen (jsTrim t) = none) :
    dedupGo seen (t :: ts) = jsTrim t :: dedupGo (seenSet seen (jsTrim t) 1) ts := by
  simp [dedupGo, h1, h2]

theorem dedupGo_cons_repeat (seen : List (String × Nat)) (t : String) (ts : List String)
    (c : Nat) (h1 : jsTrim t ≠ "") (h2 : seenLookup seen (jsTrim t) = some c) :
    dedupGo seen (t :: ts) =
      (jsTrim t ++ " (" ++ toString c ++ ")") :: dedupGo (seenSet seen (jsTrim t) (c + 1)) ts := by
  simp [dedupGo, h1, h2]

/-- On a list whose trimmed titles are pairwise distinct, the dedup pass only
trims: no suffix is ever attached. -/
theorem dedupGo_of_distinct (l : List String) :
    ∀ seen : List (String × Nat),
      (l.map jsTrim).Pairwise (· ≠ ·) →
      (∀ t ∈ l, jsTrim t ≠ "" → seenLookup seen (jsTrim t) = none) →
      dedupGo seen l = l.map jsTrim := by
  induction l with
  | nil => intro seen _ _; rfl
  | cons t ts ih =>
    intro seen hpw hseen
    simp only [List.map_cons, List.pairwise_cons] at hpw
    obtain ⟨hhead, htail⟩ := hpw
    by_cases hblank : jsTrim t = ""
    · rw [dedupGo_cons_blank seen t ts hblank, List.map_cons, ← hblank]
      congr 1
      exact ih seen htail (fun t2 ht2 hnb => hseen t2 (List.mem_cons_of_mem _ ht2) hnb)
    · have hlk : seenLookup seen (jsTrim t) = none :=
        hseen t (List.mem_cons_self _ _) hblank
      rw [dedupGo_cons_new seen t ts hblank hlk, List.map_cons]
      congr 1
      apply ih
      · exact htail
      · intro t2 ht2 hnb
        show seenLookup (seenSet seen (jsTrim t) 1) (jsTrim t2) = none
        have hne : jsTrim t ≠ jsTrim t2 :=
          hhead (jsTrim t2) (List.mem_map_of_mem jsTrim ht2)
        simp only [seenSet, seenLookup, if_neg hne]
        exact hseen t2 (List.mem_cons_of_mem _ ht2) hnb

theorem handleDuplicateNames_of_distinct (l : List String)
    (hpw : (l.map jsTrim).Pairwise (· ≠ ·)) :
    handleDuplicateNames l = l.map jsTrim :=
  dedupGo_of_distinct l [] hpw (fun _ _ _ => rfl)

/-- Claim C3 as stated is false: `handleDuplicateNames` is not idempotent on
every input.  On `["A", "A", "A (1)"]` the first pass renames the second `"A"`
to `"A (1)"`, which collides with the third (original) title `"A (1)"`; the
output `["A", "A (1)", "A (1)"]` still contains a duplicate, so a second pass
changes it to `["A", "A (1)", "A (1) (1)"]`. -/
theorem c3_counterexample :
    handleDuplicateNames (handleDuplicateNames ["A", "A", "A (1)"]) ≠
      handleDuplicateNames ["A", "A", "A (1)"] := by
  decide

/-- Claim C3 (amended): the deduplication pass is idempotent on every input
list whose trimmed titles are pairwise distinct (no renaming happens, so the
output is the trimmed input and a second pass is a no-op).  Idempotence fails
in general because a generated suffix `" (n)"` can collide with a later
original title (see the counterexample). -/
theorem c3_dedup_idempotent_on_distinct (l : List String)
    (hpw : (l.map jsTrim).Pairwise (· ≠ ·)) :
    handleDuplicateNames (handleDuplicateNames l) = handleDuplicateNames l := by
  have h1 : handleDuplicateNames l = l.map jsTrim :=
    handleDuplicateNames_of_distinct l hpw
  have hmm : (l.map jsTrim).map jsTrim = l.map jsTrim := by
    rw [List.map_map]
    exact List.map_congr_left (fun a _ => jsTrim_idem a)
  have h2 : handleDuplicateNames (l.map jsTrim) = (l.map jsTrim).map jsTrim :=
    handleDuplicateNames_of_distinct _ (by rw [hmm]; exact hpw)
  rw [h1, h2, hmm]

/-- Claim C3 witness: a concrete distinct-titles run of the amended theorem. -/
theorem c3_dedup_idempotent_on_distinct_witness :
    ((["A", " B"].map jsTrim).Pairwise (· ≠ ·)) ∧
      handleDuplicateNames (handleDuplicateNames ["A", " B"]) =
        handleDuplicateNames ["A", " B"] :=
  ⟨by decide, c3_dedup_idempotent_on_distinct ["A", " B"] (by decide)⟩

/-! ## Title sequence generator (`generatePageTitle`, `src/index.js` 370–402)

`generatePageTitle` is a closure over the request payload; it is modelled as a
function of a `TitleParams` record holding the payload fields it reads.
JavaScript `%` is `Int.tmod` (truncated remainder) and `Math.floor(a / b)` is
`Int.fdiv` (floor division); both agree with `Nat` arithmetic on the
non-negative values the claims are about. -/

/-- The JS month-name array used by the weekly/monthly branches. -/
def monthNames : List String :=
  ["January", "February", "March", "April", "May", "June", "July", "August",
   "September", "October", "November", "December"]

/-- JS `Array.prototype.indexOf`: index of the first occurrence, `-1` if absent. -/
def jsIndexOf (l : List String) (s : String) : Int :=
  match l.findIdx? (· == s) with
  | some i => (i : Int)
  | none => -1

/-- Serial day number (1970-01-01 = day 0) of a Gregorian civil date;
`m` is 1-based. -/
def daysFromCivil (y m d : Int) : Int :=
  let y2 := if m ≤ 2 then y - 1 else y
  let era := Int.fdiv y2 400
  let yoe := y2 - era * 400
  let mp := if m > 2 then m - 3 else m + 9
  let doy := Int.fdiv (153 * mp + 2) 5 + d - 1
  let doe := yoe * 365 + Int.fdiv yoe 4 - Int.fdiv yoe 100 + doy
  era * 146097 + doe - 719468

/-- Civil date `(year, month (1-based), day)` of a serial day number. -/
def civilFromDays (z0 : Int) : Int × Int × Int :=
  let z := z0 + 719468
  let era := Int.fdiv z 146097
  let doe := z - era * 146097
  let yoe := Int.fdiv (doe - Int.fdiv doe 1460 + Int.fdiv doe 36524 - Int.fdiv doe 146096) 365
  let y := yoe + era * 400
  let doy := doe - (365 * yoe + Int.fdiv yoe 4 - Int.fdiv yoe 100)
  let mp := Int.fdiv (5 * doy + 2) 153
  let d := doy - Int.fdiv (153 * mp + 2) 5 + 1
  let m := if mp < 10 then mp + 3 else mp - 9
  (if m ≤ 2 then y + 1 else y, m, d)

/-- Serial day number of the JS `new Date(year, monthIndex, day)` (month
0-based; JS normalizes month/day overflow, which is what this computes). -/
def jsDateSerial (year monthIndex day : Int) : Int :=
  let ym := year * 12 + monthIndex
  let y := Int.fdiv ym 12
  let m0 := Int.emod ym 12
  daysFromCivil y (m0 + 1) 1 + (day - 1)

/-- `toLocaleDateString('en-US', {year:'numeric', month:'long', day:'numeric'})`
of the date with the given serial day number. -/
def localeDateString (serial : Int) : String :=
  let c := civilFromDays serial
  monthNames.getD (c.2.1 - 1).toNat "undefined" ++ " " ++ toString c.2.2 ++ ", " ++
    toString c.1

/-- The payload fields read by `generatePageTitle` in `bulkGeneratePages`. -/
structure TitleParams where
  pageTitle : String
  generationMode : String
  weeklyStartMonth : String
  weeklyStartDay : Option Int
  weeklyStartYear : Int
  monthlyTargetMonth : String
  monthlyTargetYear : Int
  quarterlyStartQuarter : String
  quarterlyTargetYear : Int

/-- Dummy parameter record for instantiating single branches. -/
def baseTitleParams : TitleParams :=
  { pageTitle := "", generationMode := "", weeklyStartMonth := "",
    weeklyStartDay := none, weeklyStartYear := 0, monthlyTargetMonth := "",
    monthlyTargetYear := 0, quarterlyStartQuarter := "", quarterlyTargetYear := 0 }

/-- The JS `quarterMap` object lookup (`undefined` for an unknown quarter). -/
def quarterMap (q : String) : Option Int :=
  if q = "Q1" then some 0
  else if q = "Q2" then some 3
  else if q = "Q3" then some 6
  else if q = "Q4" then some 9
  else none

/-- `generatePageTitle` from `bulkGeneratePages` (`src/index.js` 370–402). -/
def generatePageTitle (tp : TitleParams) (index : Nat) : String :=
  if tp.generationMode = "single" then tp.pageTitle
  else if tp.generationMode = "numbered" then
    tp.pageTitle ++ " (" ++ toString (index + 1) ++ ")"
  else if tp.generationMode = "weekly" then
    let monthIndex := jsIndexOf monthNames tp.weeklyStartMonth
    -- `parseInt(weeklyStartDay) || 16`: a missing or zero day becomes 16
    let day : Int := match tp.weeklyStartDay with
      | some d => if d = 0 then 16 else d
      | none => 16
    let startSerial := jsDateSerial tp.weeklyStartYear monthIndex day
    let targetSerial := startSerial + 7 * (index : Int)
    tp.pageTitle ++ " - Week of " ++ localeDateString targetSerial
  else if tp.generationMode = "monthly" then
    let monthIndex := jsIndexOf monthNames tp.monthlyTargetMonth
    let targetMonth := Int.tmod (monthIndex + (index : Int)) 12
    let targetYear := tp.monthlyTargetYear + Int.fdiv (monthIndex + (index : Int)) 12
    let mname := if 0 ≤ targetMonth then monthNames.getD targetMonth.toNat "undefined"
      else "undefined"
    tp.pageTitle ++ " - " ++ mname ++ " " ++ toString targetYear
  else if tp.generationMode = "quarterly" then
    match quarterMap tp.quarterlyStartQuarter with
    | some startQuarterMonth =>
      let monthsOffset : Int := (index : Int) * 3
      let targetMonth := Int.tmod (startQuarterMonth + monthsOffset) 12
      let yearsOffset := Int.fdiv (startQuarterMonth + monthsOffset) 12
      let targetYear := tp.quarterlyTargetYear + yearsOffset
      let quarterNum := Int.fdiv targetMonth 3 + 1
      tp.pageTitle ++ " - Q" ++ toString quarterNum ++ " " ++ toString targetYear
    | none => tp.pageTitle ++ " - QNaN NaN"
  else tp.pageTitle

theorem tmod_coe (a b : Nat) : Int.tmod (a : Int) (b : Int) = ((a % b : Nat) : Int) := by
  rw [Int.tmod_eq_emod (by positivity) (by positivity)]
  exact_mod_cast rfl

theorem fdiv_coe (a b : Nat) : Int.fdiv (a : Int) (b : Int) = ((a / b : Nat) : Int) := by
  rw [Int.fdiv_eq_ediv _ (by positivity)]
  exact_mod_cast rfl

/-- Claim C5: for every valid start month name (at index `k` in the month
table), start year, base title and index `i`, the monthly generator produces
`"{base} - {MonthName} {targetYear}"` with
`targetMonthIndex = (k + i) % 12` and `targetYear = startYear + (k + i) / 12`;
in particular, starting November 2025 with count 4 yields November 2025,
December 2025, January 2026, February 2026. -/
theorem c5_monthly_title_formula :
    (∀ (base m : String) (y : Int) (i k : Nat),
      monthNames.findIdx? (· == m) = some k →
      generatePageTitle { baseTitleParams with
          pageTitle := base, generationMode := "monthly",
          monthlyTargetMonth := m, monthlyTargetYear := y } i =
        base ++ " - " ++ monthNames.getD ((k + i) % 12) "undefined" ++ " " ++
          toString (y + (((k + i) / 12 : Nat) : Int))) ∧
    (List.range 4).map (generatePageTitle { baseTitleParams with
        pageTitle := "Report", generationMode := "monthly",
        monthlyTargetMonth := "November", monthlyTargetYear := 2025 }) =
      ["Report - November 2025", "Report - December 2025",
       "Report - January 2026", "Report - February 2026"] := by
  constructor
  · intro base m y i k hk
    have hidx : jsIndexOf monthNames m = (k : Int) := by simp [jsIndexOf, hk]
    simp only [generatePageTitle, baseTitleParams, hidx]
    have h1 : ((k : Int) + (i : Int)) = ((k + i : Nat) : Int) := by push_cast; ring
    have h12 : (12 : Int) = ((12 : Nat) : Int) := rfl
    rw [h1, h12, tmod_coe, fdiv_coe, if_pos (Int.natCast_nonneg _), Int.toNat_natCast]
    rw [if_neg (by decide), if_neg (by decide), if_neg (by decide), if_pos trivial]
  · rfl

/-- Claim C5 witness: the formula instantiated at November 2025, index 3. -/
theorem c5_monthly_title_formula_witness :
    monthNames.findIdx? (· == "November") = some 10 ∧
    generatePageTitle { baseTitleParams with
        pageTitle := "Report", generationMode := "monthly",
        monthlyTargetMonth := "November", monthlyTargetYear := 2025 } 3 =
      "Report" ++ " - " ++ monthNames.getD ((10 + 3) % 12) "undefined" ++ " " ++
        toString ((2025 : Int) + (((10 + 3) / 12 : Nat) : Int)) :=
  ⟨by decide, c5_monthly_title_formula.1 "Report" "November" 2025 3 10 (by decide)⟩

/-! ## Bulk creation engines

The two resolvers `bulkGeneratePagesWithProgress` (unnamed resolver module,
lines 735–970) and `bulkGeneratePages` (`src/index.js`, lines 264–474) are
modelled as pure functions of the request payload and a store oracle
(`StoreEnv`).  The oracle answers the n-th page-create request of a run with
an arbitrary response, so every pattern of per-item success/failure is
representable.  An outcome records, besides the returned value (or the
thrown error), the exact list of page-create requests the run issued, split
into the parent-page request and the child-page requests. -/

/-- A stored template (the fields the engines read). -/
structure Template where
  name : String
  content : String
  deriving DecidableEq, Repr

/-- A `POST /wiki/api/v2/pages` request body (the fields the engines set). -/
structure PagePayload where
  spaceId : Option Nat
  title : String
  parentId : Option String
  body : String
  deriving DecidableEq, Repr

/-- The fields of a created page the engines read off the store's response. -/
structure CreatedPage where
  id : String
  title : String
  url : String
  deriving DecidableEq, Repr

/-- Response to one create request: 2xx with a page, non-2xx with a status
and body text, or a thrown transport error with a message. -/
inductive CreateResult where
  | ok : CreatedPage → CreateResult
  | fail : Nat → String → CreateResult
  | raise : String → CreateResult
  deriving DecidableEq, Repr

/-- The remote store and Forge storage, as oracles. -/
structure StoreEnv where
  storageGet : String → Option Template
  resolveSpace : String → Option Nat
  create : Nat → PagePayload → CreateResult
  siteUrl : String

/-- Payload of `bulkGeneratePagesWithProgress` (the fields it reads). -/
structure BulkPayload where
  templateId : Option String
  spaceKey : Option String
  spaceId : Option Nat
  pageTitle : Option String
  pageTitles : Option (List String)
  pageOrganization : String
  parentPageId : Option String
  newParentTitle : Option String

/-- One entry of `batchResults`. -/
inductive BatchResult where
  | success : Nat → CreatedPage → BatchResult
  | failure : Nat → String → String → BatchResult
  deriving DecidableEq, Repr

/-- One entry of the `errors` array: `{index, error, title}`. -/
structure PageError where
  index : Nat
  error : String
  title : String
  deriving DecidableEq, Repr

/-- The `data` object of the resolver's return value. -/
structure BulkData where
  createdCount : Nat
  errorCount : Nat
  pages : List CreatedPage
  errors : List PageError
  totalRequested : Nat
  batchCount : Nat
  batchSize : Nat
  deriving DecidableEq, Repr

/-- Observable outcome of a run: the returned data or the thrown error,
plus the create requests issued (parent first, children in issue order). -/
structure BulkOutcome where
  result : Except String BulkData
  parentRequests : List PagePayload
  childRequests : List PagePayload
  deriving Repr

/-- The `else if (pageTitle)` fallback of the title determination. -/
def titlesFromSingle (p : BulkPayload) : Except String (List String) :=
  match p.pageTitle with
  | some t =>
    if t ≠ "" then Except.ok [t]
    else Except.error "Either pageTitle or pageTitles array is required"
  | none => Except.error "Either pageTitle or pageTitles array is required"

/-- Title determination (lines 772–782): a non-empty `pageTitles` array is
filtered down to entries with non-blank trim; otherwise a truthy `pageTitle`
is used as a singleton. -/
def titlesToCreate (p : BulkPayload) : Except String (List String) :=
  match p.pageTitles with
  | some ts =>
    if 0 < ts.length then Except.ok (ts.filter (fun t => jsTrim t != ""))
    else titlesFromSingle p
  | none => titlesFromSingle p

/-- Splitting into consecutive batches of size `n + 1` (the source loops
`for (i = 0; i < pageCount; i += OPTIMAL_BATCH_SIZE)`; the fuel argument is
the list length, which always suffices because each step consumes at least
one element). -/
def chunkAux {α : Type} (n : Nat) : Nat → List α → List (List α)
  | _, [] => []
  | 0, x :: xs => [x :: xs]
  | fuel + 1, x :: xs => (x :: xs.take n) :: chunkAux n fuel (xs.drop n)

/-- Batches of size `n + 1`, in order. -/
def chunkBatches {α : Type} (n : Nat) (l : List α) : List (List α) :=
  chunkAux n l.length l

/-- `OPTIMAL_BATCH_SIZE = Math.min(5, Math.max(1, Math.ceil(pageCount / 10)))`. -/
def optimalBatchSize (pageCount : Nat) : Nat :=
  min 5 (max 1 ((pageCount + 9) / 10))

/-- The resolved numeric space id: the payload's `spaceId` if present, else
the key lookup (`none` models a failed or empty lookup — the code has no
further check). -/
def resolvedSpaceId (env : StoreEnv) (p : BulkPayload) : Option Nat :=
  match p.spaceId with
  | some s => some s
  | none => env.resolveSpace (p.spaceKey.getD "")

/-- The parent-page create request of `create-parent` mode (empty body). -/
def parentPayload (env : StoreEnv) (p : BulkPayload) : PagePayload :=
  { spaceId := resolvedSpaceId env p, title := p.newParentTitle.getD "",
    parentId := none, body := "" }

/-- Sequential processing of one batch: each item issues one create request
(`ctr` is the global request counter) and yields exactly one `BatchResult`. -/
def runBatchItems (env : StoreEnv) (nsid : Option Nat) (apid : Option String)
    (content : String) (ctr : Nat) :
    List (Nat × String) → List PagePayload × List BatchResult
  | [] => ([], [])
  | it :: its =>
    let pay : PagePayload :=
      { spaceId := nsid, title := it.2, parentId := apid, body := content }
    let r := match env.create ctr pay with
      | CreateResult.ok pg => BatchResult.success it.1 pg
      | CreateResult.fail st _ =>
          BatchResult.failure it.1 ("Failed to create page: " ++ toString st) it.2
      | CreateResult.raise m => BatchResult.failure it.1 m it.2
    let rest := runBatchItems env nsid apid content (ctr + 1) its
    (pay :: rest.1, r :: rest.2)

/-- The `batchResults.forEach` success branch: pages in result order. -/
def pagesOfResults (rs : List BatchResult) : List CreatedPage :=
  rs.filterMap fun r => match r with
    | BatchResult.success _ pg => some pg
    | BatchResult.failure _ _ _ => none

/-- The `batchResults.forEach` failure branch: errors in result order. -/
def errorsOfResults (rs : List BatchResult) : List PageError :=
  rs.filterMap fun r => match r with
    | BatchResult.success _ _ => none
    | BatchResult.failure i e t => some { index := i, error := e, title := t }

/-- Sequential processing of all batches, accumulating issued requests,
created pages and errors in order. -/
def runBatches (env : StoreEnv) (nsid : Option Nat) (apid : Option String)
    (content : String) (ctr : Nat) :
    List (List (Nat × String)) → List PagePayload × List CreatedPage × List PageError
  | [] => ([], [], [])
  | b :: bs =>
    let br := runBatchItems env nsid apid content ctr b
    let rest := runBatches env nsid apid content (ctr + b.length) bs
    (br.1 ++ rest.1, pagesOfResults br.2 ++ rest.2.1, errorsOfResults br.2 ++ rest.2.2)

/-- Batching and creation (lines 846–969): always returns `success: true`
with the aggregated report. -/
def bulkChildPhase (env : StoreEnv) (titles : List String) (tmpl : Template)
    (nsid : Option Nat) (apid : Option String) (parentReqs : List PagePayload) :
    BulkOutcome :=
  let pageCount := titles.length
  let obs := optimalBatchSize pageCount
  let batches := chunkBatches (obs - 1) titles.enum
  let res := runBatches env nsid apid tmpl.content parentReqs.length batches
  { result := Except.ok
      { createdCount := res.2.1.length
        errorCount := res.2.2.length
        pages := res.2.1
        errors := res.2.2
        totalRequested := pageCount
        batchCount := batches.length
        batchSize := obs }
    parentRequests := parentReqs
    childRequests := res.1 }

/-- Space resolution and parent-page handling (lines 796–843).  Note: a
failed space resolution is NOT checked — the run continues with an
undefined (`none`) space id. -/
def bulkRunCore (env : StoreEnv) (p : BulkPayload) (titles : List String)
    (tmpl : Template) : BulkOutcome :=
  let nsid := resolvedSpaceId env p
  if p.pageOrganization == "create-parent" && jsTruthy p.newParentTitle then
    let ppay := parentPayload env p
    match env.create 0 ppay with
    | CreateResult.ok pd => bulkChildPhase env titles tmpl nsid (some pd.id) [ppay]
    | CreateResult.fail _ _ =>
        { result := Except.error "Failed to create parent page",
          parentRequests := [ppay], childRequests := [] }
    | CreateResult.raise m =>
        { result := Except.error m, parentRequests := [ppay], childRequests := [] }
  else if p.pageOrganization == "create-child" && jsTruthy p.parentPageId then
    bulkChildPhase env titles tmpl nsid p.parentPageId []
  else
    bulkChildPhase env titles tmpl nsid none []

/-- `bulkGeneratePagesWithProgress` (unnamed resolver module, lines
735–970): validation, title determination, template fetch, then the run. -/
def bulkGeneratePagesWithProgress (env : StoreEnv) (p : BulkPayload) :
    BulkOutcome :=
  if !jsTruthy p.templateId || !jsTruthy p.spaceKey then
    { result := Except.error "templateId and spaceKey are required",
      parentRequests := [], childRequests := [] }
  else
    match titlesToCreate p with
    | Except.error e =>
        { result := Except.error e, parentRequests := [], childRequests := [] }
    | Except.ok titles =>
      if titles.length = 0 then
        { result := Except.error "No valid page titles provided",
          parentRequests := [], childRequests := [] }
      else
        match env.storageGet ("template_" ++ p.templateId.getD "") with
        | none =>
            { result := Except.error
                ("Template " ++ p.templateId.getD "" ++ " not found"),
              parentRequests := [], childRequests := [] }
        | some tmpl => bulkRunCore env p titles tmpl

/-! ### C1: the report counting invariant -/

theorem runBatchItems_length (env : StoreEnv) (nsid : Option Nat) (apid : Option String)
    (content : String) : ∀ (its : List (Nat × String)) (ctr : Nat),
    (runBatchItems env nsid apid content ctr its).2.length = its.length := by
  intro its
  induction its with
  | nil => intro ctr; rfl
  | cons it its ih => intro ctr; simp only [runBatchItems, List.length_cons, ih]

theorem pages_errors_split_count (rs : List BatchResult) :
    (pagesOfResults rs).length + (errorsOfResults rs).length = rs.length := by
  induction rs with
  | nil => rfl
  | cons r rs ih =>
    cases r with
    | success i pg =>
      simp only [pagesOfResults, errorsOfResults, List.filterMap_cons] at ih ⊢
      simp only [List.length_cons]
      omega
    | failure i e t =>
      simp only [pagesOfResults, errorsOfResults, List.filterMap_cons] at ih ⊢
      simp only [List.length_cons]
      omega

theorem runBatches_count (env : StoreEnv) (nsid : Option Nat) (apid : Option String)
    (content : String) : ∀ (bs : List (List (Nat × String))) (ctr : Nat),
    (runBatches env nsid apid content ctr bs).2.1.length +
      (runBatches env nsid apid content ctr bs).2.2.length = bs.flatten.length := by
  intro bs
  induction bs with
  | nil => intro ctr; rfl
  | cons b bs ih =>
    intro ctr
    simp only [runBatches, List.flatten_cons, List.length_append]
    have h1 := pages_errors_split_count (runBatchItems env nsid apid content ctr b).2
    have h2 := runBatchItems_length env nsid apid content b ctr
    have h3 := ih (ctr + b.length)
    omega

theorem chunkAux_join {α : Type} (n : Nat) :
    ∀ (fuel : Nat) (l : List α), l.length ≤ fuel → (chunkAux n fuel l).flatten = l := by
  intro fuel
  induction fuel with
  | zero =>
    intro l hl
    cases l with
    | nil => rfl
    | cons x xs => simp at hl
  | succ fuel ih =>
    intro l hl
    cases l with
    | nil => rfl
    | cons x xs =>
      simp only [chunkAux, List.flatten_cons]
      rw [ih (xs.drop n) (by simp only [List.length_drop]; simp at hl; omega)]
      simp only [List.cons_append, List.take_append_drop]

theorem chunkBatches_join {α : Type} (n : Nat) (l : List α) :
    (chunkBatches n l).flatten = l :=
  chunkAux_join n l.length l le_rfl

theorem bulkChildPhase_count (env : StoreEnv) (titles : List String) (tmpl : Template)
    (nsid : Option Nat) (apid : Option String) (preqs : List PagePayload) (d : BulkData)
    (h : (bulkChildPhase env titles tmpl nsid apid preqs).result = Except.ok d) :
    d.createdCount + d.errors.length = d.totalRequested := by
  simp only [bulkChildPhase, Except.ok.injEq] at h
  rw [← h]
  simp only
  rw [runBatches_count, chunkBatches_join, List.enum_length]

theorem bulkRunCore_count (env : StoreEnv) (p : BulkPayload) (titles : List String)
    (tmpl : Template) (d : BulkData)
    (h : (bulkRunCore env p titles tmpl).result = Except.ok d) :
    d.createdCount + d.errors.length = d.totalRequested := by
  simp only [bulkRunCore] at h
  split at h
  · split at h
    · exact bulkChildPhase_count _ _ _ _ _ _ _ h
    · simp at h
    · simp at h
  · split at h
    · exact bulkChildPhase_count _ _ _ _ _ _ _ h
    · exact bulkChildPhase_count _ _ _ _ _ _ _ h

/-- Claim C1: whenever `bulkGeneratePagesWithProgress` returns a report (the
run passed validation), `createdCount + errors.length = totalRequested`,
where `totalRequested` is the length of the title sequence actually
processed — each processed title yields exactly one outcome. -/
theorem c1_report_count_invariant (env : StoreEnv) (p : BulkPayload) (d : BulkData)
    (h : (bulkGeneratePagesWithProgress env p).result = Except.ok d) :
    d.createdCount + d.errors.length = d.totalRequested := by
  unfold bulkGeneratePagesWithProgress at h
  split at h
  · simp at h
  · split at h
    · simp at h
    · split at h
      · simp at h
      · split at h
        · simp at h
        · exact bulkRunCore_count _ _ _ _ _ h

/-- A sample store: the second create request fails, the rest succeed. -/
def sampleEnv : StoreEnv :=
  { storageGet := fun _ => some { name := "T", content := "<p>c</p>" }
    resolveSpace := fun _ => some 42
    create := fun n pay =>
      if n = 1 then CreateResult.fail 400 "bad"
      else CreateResult.ok { id := "p" ++ toString n, title := pay.title, url := "u" ++ toString n }
    siteUrl := "https://example.net" }

/-- A sample request: three explicit titles, create-child without parent. -/
def samplePayload : BulkPayload :=
  { templateId := some "t1", spaceKey := some "S", spaceId := none
    pageTitle := none, pageTitles := some ["Draft (1)", "Draft (2)", "Draft (3)"]
    pageOrganization := "create-child", parentPageId := none, newParentTitle := none }

/-- The report `sampleEnv`/`samplePayload` produces: 2 created, 1 error. -/
def sampleReport : BulkData :=
  { createdCount := 2, errorCount := 1
    pages := [{ id := "p0", title := "Draft (1)", url := "u0" },
              { id := "p2", title := "Draft (3)", url := "u2" }]
    errors := [{ index := 1, error := "Failed to create page: 400", title := "Draft (2)" }]
    totalRequested := 3, batchCount := 3, batchSize := 1 }

/-- Claim C1 witness: a mixed success/failure run satisfying the invariant. -/
theorem c1_report_count_invariant_witness :
    (bulkGeneratePagesWithProgress sampleEnv samplePayload).result = Except.ok sampleReport ∧
      sampleReport.createdCount + sampleReport.errors.length = sampleReport.totalRequested :=
  ⟨rfl, c1_report_count_invariant sampleEnv samplePayload sampleReport rfl⟩

/-! ### C9: blank explicit titles are dropped before any write -/

theorem runBatchItems_titles (env : StoreEnv) (nsid : Option Nat) (apid : Option String)
    (content : String) : ∀ (its : List (Nat × String)) (ctr : Nat),
    (runBatchItems env nsid apid content ctr its).1.map PagePayload.title =
      its.map Prod.snd := by
  intro its
  induction its with
  | nil => intro ctr; rfl
  | cons it its ih => intro ctr; simp only [runBatchItems, List.map_cons, ih]

theorem runBatches_titles (env : StoreEnv) (nsid : Option Nat) (apid : Option String)
    (content : String) : ∀ (bs : List (List (Nat × String))) (ctr : Nat),
    (runBatches env nsid apid content ctr bs).1.map PagePayload.title =
      bs.flatten.map Prod.snd := by
  intro bs
  induction bs with
  | nil => intro ctr; rfl
  | cons b bs ih =>
    intro ctr
    simp only [runBatches, List.flatten_cons, List.map_append,
      runBatchItems_titles, ih]

theorem bulkChildPhase_titles (env : StoreEnv) (titles : List String) (tmpl : Template)
    (nsid : Option Nat) (apid : Option String) (preqs : List PagePayload) :
    (bulkChildPhase env titles tmpl nsid apid preqs).childRequests.map PagePayload.title =
      titles := by
  simp only [bulkChildPhase]
  rw [runBatches_titles, chunkBatches_join, List.enum_map_snd]

theorem bulkRunCore_titles (env : StoreEnv) (p : BulkPayload) (titles : List String)
    (tmpl : Template) :
    (bulkRunCore env p titles tmpl).childRequests.map PagePayload.title = titles ∨
      (bulkRunCore env p titles tmpl).childRequests = [] := by
  simp only [bulkRunCore]
  split
  · split
    · exact Or.inl (bulkChildPhase_titles _ _ _ _ _ _)
    · exact Or.inr rfl
    · exact Or.inr rfl
  · split
    · exact Or.inl (bulkChildPhase_titles _ _ _ _ _ _)
    · exact Or.inl (bulkChildPhase_titles _ _ _ _ _ _)

theorem bulkChildPhase_total (env : StoreEnv) (titles : List String) (tmpl : Template)
    (nsid : Option Nat) (apid : Option String) (preqs : List PagePayload) (d : BulkData)
    (h : (bulkChildPhase env titles tmpl nsid apid preqs).result = Except.ok d) :
    d.totalRequested = titles.length := by
  simp only [bulkChildPhase, Except.ok.injEq] at h
  rw [← h]

theorem bulkRunCore_total (env : StoreEnv) (p : BulkPayload) (titles : List String)
    (tmpl : Template) (d : BulkData)
    (h : (bulkRunCore env p titles tmpl).result = Except.ok d) :
    d.totalRequested = titles.length := by
  simp only [bulkRunCore] at h
  split at h
  · split at h
    · exact bulkChildPhase_total _ _ _ _ _ _ _ h
    · simp at h
    · simp at h
  · split at h
    · exact bulkChildPhase_total _ _ _ _ _ _ _ h
    · exact bulkChildPhase_total _ _ _ _ _ _ _ h

theorem titlesToCreate_of_list (p : BulkPayload) (ts : List String)
    (hts : p.pageTitles = some ts) (hne : ts ≠ []) :
    titlesToCreate p = Except.ok (ts.filter (fun t => jsTrim t != "")) := by
  simp only [titlesToCreate, hts]
  rw [if_pos (List.length_pos.mpr hne)]

/-- Every run either fails before the core (with no requests issued) or
reaches the core with validated titles and template. -/
theorem bulk_main_shape (env : StoreEnv) (p : BulkPayload) :
    (∃ e, bulkGeneratePagesWithProgress env p =
      { result := Except.error e, parentRequests := [], childRequests := [] }) ∨
    (∃ titles tmpl, titlesToCreate p = Except.ok titles ∧ ¬ titles.length = 0 ∧
      env.storageGet ("template_" ++ p.templateId.getD "") = some tmpl ∧
      bulkGeneratePagesWithProgress env p = bulkRunCore env p titles tmpl) := by
  unfold bulkGeneratePagesWithProgress
  split
  · exact Or.inl ⟨_, rfl⟩
  · split
    · exact Or.inl ⟨_, rfl⟩
    · rename_i titles heq
      split
      · exact Or.inl ⟨_, rfl⟩
      · rename_i hn
        split
        · exact Or.inl ⟨_, rfl⟩
        · rename_i tmpl htm
          exact Or.inr ⟨titles, tmpl, heq, hn, htm, rfl⟩

/-- A run that passes all the pre-core validations reaches the core. -/
theorem bulk_main_ok (env : StoreEnv) (p : BulkPayload) (titles : List String)
    (tmpl : Template)
    (hv : (!jsTruthy p.templateId || !jsTruthy p.spaceKey) = false)
    (ht : titlesToCreate p = Except.ok titles)
    (hn : ¬ titles.length = 0)
    (htm : env.storageGet ("template_" ++ p.templateId.getD "") = some tmpl) :
    bulkGeneratePagesWithProgress env p = bulkRunCore env p titles tmpl := by
  unfold bulkGeneratePagesWithProgress
  rw [hv]
  simp only [Bool.false_eq_true, if_false, ht, htm]
  rw [if_neg hn]

/-- Claim C9: with an explicit non-empty `pageTitles` list, (a) every child
create request carries a non-blank title; (b) a returned report's
`totalRequested` is the number of non-blank entries, not the caller's array
length; (c) if every entry is blank the run fails with an error before any
create request is issued. -/
theorem c9_blank_titles_dropped (env : StoreEnv) (p : BulkPayload) (ts : List String)
    (hts : p.pageTitles = some ts) (hne : ts ≠ []) :
    (∀ q ∈ (bulkGeneratePagesWithProgress env p).childRequests, jsTrim q.title ≠ "") ∧
    (∀ d, (bulkGeneratePagesWithProgress env p).result = Except.ok d →
      d.totalRequested = (ts.filter (fun t => jsTrim t != "")).length) ∧
    (ts.filter (fun t => jsTrim t != "") = [] →
      (∃ e, (bulkGeneratePagesWithProgress env p).result = Except.error e) ∧
        (bulkGeneratePagesWithProgress env p).parentRequests = [] ∧
        (bulkGeneratePagesWithProgress env p).childRequests = []) := by
  have ht := titlesToCreate_of_list p ts hts hne
  refine ⟨?_, ?_, ?_⟩
  · intro q hq
    rcases bulk_main_shape env p with ⟨e, he⟩ | ⟨titles, tmpl, ht2, hn2, htm2, hmain⟩
    · rw [he] at hq; simp at hq
    · rw [ht] at ht2
      injection ht2 with h
      subst h
      rw [hmain] at hq
      rcases bulkRunCore_titles env p (ts.filter (fun t => jsTrim t != "")) tmpl
        with hmap | hempty
      · have hmem : q.title ∈ ts.filter (fun t => jsTrim t != "") := by
          rw [← hmap]
          exact List.mem_map_of_mem PagePayload.title hq
        exact bne_iff_ne.mp (List.mem_filter.mp hmem).2
      · rw [hempty] at hq
        simp at hq
  · intro d hd
    rcases bulk_main_shape env p with ⟨e, he⟩ | ⟨titles, tmpl, ht2, hn2, htm2, hmain⟩
    · rw [he] at hd; simp at hd
    · rw [ht] at ht2
      injection ht2 with h
      subst h
      rw [hmain] at hd
      exact bulkRunCore_total _ _ _ _ _ hd
  · intro hall
    rcases bulk_main_shape env p with ⟨e, he⟩ | ⟨titles, tmpl, ht2, hn2, htm2, hmain⟩
    · rw [he]; exact ⟨⟨e, rfl⟩, rfl, rfl⟩
    · rw [ht] at ht2
      injection ht2 with h
      subst h
      exact absurd (by rw [hall]; rfl) hn2

/-- Claim C9 witness: blank and whitespace-only entries are dropped. -/
theorem c9_blank_titles_dropped_witness :
    (samplePayload.pageTitles = some ["Draft (1)", "Draft (2)", "Draft (3)"]) ∧
      (["Draft (1)", "Draft (2)", "Draft (3)"] ≠ ([] : List String)) ∧
      ∀ d, (bulkGeneratePagesWithProgress sampleEnv samplePayload).result = Except.ok d →
        d.totalRequested =
          ((["Draft (1)", "Draft (2)", "Draft (3)"] : List String).filter
            (fun t => jsTrim t != "")).length :=
  ⟨rfl, by decide,
    (c9_blank_titles_dropped sampleEnv samplePayload _ rfl (by decide)).2.1⟩

/-! ### C6: a failed parent-page create aborts the run with no children -/

/-- Claim C6: in `create-parent` mode, if the parent-page create request
fails (non-2xx) or throws, the whole run fails with an error and no child
create request is issued. -/
theorem c6_parent_failure_aborts (env : StoreEnv) (p : BulkPayload)
    (titles : List String) (tmpl : Template)
    (hv : (!jsTruthy p.templateId || !jsTruthy p.spaceKey) = false)
    (ht : titlesToCreate p = Except.ok titles)
    (hn : ¬ titles.length = 0)
    (htm : env.storageGet ("template_" ++ p.templateId.getD "") = some tmpl)
    (horg : (p.pageOrganization == "create-parent" && jsTruthy p.newParentTitle) = true) :
    (∀ st txt, env.create 0 (parentPayload env p) = CreateResult.fail st txt →
      bulkGeneratePagesWithProgress env p =
        { result := Except.error "Failed to create parent page",
          parentRequests := [parentPayload env p], childRequests := [] }) ∧
    (∀ m, env.create 0 (parentPayload env p) = CreateResult.raise m →
      bulkGeneratePagesWithProgress env p =
        { result := Except.error m,
          parentRequests := [parentPayload env p], childRequests := [] }) := by
  have hmain := bulk_main_ok env p titles tmpl hv ht hn htm
  constructor
  · intro st txt hc
    rw [hmain]
    simp only [bulkRunCore, horg, if_true, hc]
  · intro m hc
    rw [hmain]
    simp only [bulkRunCore, horg, if_true, hc]

/-- A store whose every create request fails with HTTP 500. -/
def failingCreateEnv : StoreEnv :=
  { sampleEnv with create := fun _ _ => CreateResult.fail 500 "boom" }

/-- A create-parent request. -/
def parentModePayload : BulkPayload :=
  { samplePayload with pageOrganization := "create-parent", newParentTitle := some "Parent" }

/-- Claim C6 witness: a concrete run whose parent create fails. -/
theorem c6_parent_failure_aborts_witness :
    bulkGeneratePagesWithProgress failingCreateEnv parentModePayload =
      { result := Except.error "Failed to create parent page",
        parentRequests := [parentPayload failingCreateEnv parentModePayload],
        childRequests := [] } :=
  (c6_parent_failure_aborts failingCreateEnv parentModePayload
      ["Draft (1)", "Draft (2)", "Draft (3)"] { name := "T", content := "<p>c</p>" }
      rfl rfl (by decide) rfl rfl).1 500 "boom" rfl

/-! ## `bulkGeneratePages` (`src/index.js`, lines 264–474)

The older engine variant: single-title modes, a plain sequential loop, and —
unlike `bulkGeneratePagesWithProgress` — an explicit
`if (!numericSpaceId) throw` guard after space resolution (lines 319–321). -/

/-- Payload of `bulkGeneratePages` (the fields it reads). -/
structure OldBulkPayload where
  templateId : Option String
  spaceKey : Option String
  spaceId : Option Nat
  parentPageId : Option String
  pageTitle : Option String
  generationMode : String
  numberedCount : Nat
  weeklyCount : Nat
  monthlyCount : Nat
  quarterlyCount : Nat
  pageOrganization : String
  newParentTitle : Option String
  weeklyStartMonth : String
  weeklyStartDay : Option Int
  weeklyStartYear : Int
  monthlyTargetMonth : String
  monthlyTargetYear : Int
  quarterlyStartQuarter : String
  quarterlyTargetYear : Int

/-- The payload fields `generatePageTitle` closes over. -/
def oldTitleParams (p : OldBulkPayload) : TitleParams :=
  { pageTitle := p.pageTitle.getD "", generationMode := p.generationMode,
    weeklyStartMonth := p.weeklyStartMonth, weeklyStartDay := p.weeklyStartDay,
    weeklyStartYear := p.weeklyStartYear, monthlyTargetMonth := p.monthlyTargetMonth,
    monthlyTargetYear := p.monthlyTargetYear,
    quarterlyStartQuarter := p.quarterlyStartQuarter,
    quarterlyTargetYear := p.quarterlyTargetYear }

/-- `pageCount` by generation mode (lines 353–362). -/
def oldPageCount (p : OldBulkPayload) : Nat :=
  if p.generationMode = "numbered" then p.numberedCount
  else if p.generationMode = "weekly" then p.weeklyCount
  else if p.generationMode = "monthly" then p.monthlyCount
  else if p.generationMode = "quarterly" then p.quarterlyCount
  else 1

/-- One entry of the old engine's `createdPages` array. -/
structure OldCreatedPage where
  success : Bool
  pageId : String
  title : String
  url : String
  deriving DecidableEq, Repr

/-- The old engine's success return value. -/
structure OldReport where
  pages : List OldCreatedPage
  errors : List String
  reportCount : Nat
  message : String
  firstPageUrl : Option String
  multipleReports : Bool
  deriving DecidableEq, Repr

/-- Outcome of an old-engine run (result plus issued create requests). -/
structure OldOutcome where
  result : Except String OldReport
  parentRequests : List PagePayload
  childRequests : List PagePayload
  deriving Repr

/-- The `for (let i = 0; i < pageCount; i++)` create loop (lines 405–456). -/
def oldCreateItems (env : StoreEnv) (p : OldBulkPayload) (sid : Nat)
    (apid : Option String) (content : String) (ctr : Nat) :
    List Nat → List OldCreatedPage × List String × List PagePayload
  | [] => ([], [], [])
  | i :: is =>
    let pageName := generatePageTitle (oldTitleParams p) i
    let pay : PagePayload :=
      { spaceId := some sid, title := pageName,
        parentId :=
          if (p.pageOrganization == "create-child" || p.pageOrganization == "create")
              && jsTruthy apid then apid else none,
        body := content }
    let rest := oldCreateItems env p sid apid content (ctr + 1) is
    match env.create ctr pay with
    | CreateResult.ok pd =>
        ({ success := true, pageId := pd.id, title := pageName,
           url := env.siteUrl ++ "/wiki/spaces/" ++ p.spaceKey.getD "" ++
             "/pages/" ++ pd.id } :: rest.1,
         rest.2.1, pay :: rest.2.2)
    | CreateResult.fail _ txt =>
        (rest.1, (pageName ++ ": " ++ txt) :: rest.2.1, pay :: rest.2.2)
    | CreateResult.raise m =>
        (rest.1, ("Page " ++ toString (i + 1) ++ ": " ++ m) :: rest.2.1, pay :: rest.2.2)

/-- The create loop plus report assembly (lines 404–468). -/
def oldChildPhase (env : StoreEnv) (p : OldBulkPayload) (sid : Nat)
    (apid : Option String) (tmpl : Template) (parentReqs : List PagePayload) :
    OldOutcome :=
  let pageCount := oldPageCount p
  let res := oldCreateItems env p sid apid tmpl.content parentReqs.length
    (List.range pageCount)
  { result := Except.ok
      { pages := res.1, errors := res.2.1, reportCount := res.1.length,
        message := "Successfully created " ++ toString res.1.length ++ " page(s)",
        firstPageUrl := res.1.head?.map OldCreatedPage.url,
        multipleReports := decide (1 < res.1.length) }
    parentRequests := parentReqs
    childRequests := res.2.2 }

/-- `bulkGeneratePages` (`src/index.js`): validation, template fetch, space
resolution (with the `if (!numericSpaceId) throw` guard), optional parent
creation, then the create loop.  The outer `try/catch` returning
`{success:false, error}` is the `Except.error` case. -/
def bulkGeneratePages (env : StoreEnv) (p : OldBulkPayload) : OldOutcome :=
  if !jsTruthy p.templateId || !jsTruthy p.spaceKey || !jsTruthy p.pageTitle then
    { result := Except.error "templateId, spaceKey, and pageTitle are required",
      parentRequests := [], childRequests := [] }
  else
    match env.storageGet ("template_" ++ p.templateId.getD "") with
    | none =>
        { result := Except.error ("Template " ++ p.templateId.getD "" ++ " not found"),
          parentRequests := [], childRequests := [] }
    | some tmpl =>
      let nsid : Option Nat :=
        match p.spaceId with
        | some s => some s
        | none => env.resolveSpace (p.spaceKey.getD "")
      match nsid with
      | none =>
          { result := Except.error
              ("Could not resolve numeric space ID for space: " ++ p.spaceKey.getD ""),
            parentRequests := [], childRequests := [] }
      | some sid =>
        if p.pageOrganization == "create" && jsTruthy p.newParentTitle then
          let ppay : PagePayload :=
            { spaceId := some sid, title := jsTrim (p.newParentTitle.getD ""),
              parentId := none,
              body := "<h1>" ++ p.newParentTitle.getD "" ++
                "</h1><p>Parent page for bulk generated pages</p>" }
          match env.create 0 ppay with
          | CreateResult.ok pd => oldChildPhase env p sid (some pd.id) tmpl [ppay]
          | CreateResult.fail _ _ =>
              { result := Except.error "Failed to create parent page",
                parentRequests := [ppay], childRequests := [] }
          | CreateResult.raise m =>
              { result := Except.error m, parentRequests := [ppay], childRequests := [] }
        else
          oldChildPhase env p sid p.parentPageId tmpl []

/-! ### C2: an unresolvable container key -/

/-- A store in which no space key resolves to a numeric id. -/
def unresolvableEnv : StoreEnv :=
  { storageGet := fun _ => some { name := "T", content := "<p>c</p>" }
    resolveSpace := fun _ => none
    create := fun n pay =>
      CreateResult.ok { id := "p" ++ toString n, title := pay.title, url := "u" }
    siteUrl := "https://x" }

/-- A two-title request against `bulkGeneratePagesWithProgress`. -/
def unresolvableNewPayload : BulkPayload :=
  { templateId := some "t1", spaceKey := some "S", spaceId := none
    pageTitle := none, pageTitles := some ["A", "B"]
    pageOrganization := "create-child", parentPageId := none, newParentTitle := none }

/-- A single-title request against `bulkGeneratePages`. -/
def unresolvableOldPayload : OldBulkPayload :=
  { templateId := some "t1", spaceKey := some "S", spaceId := none, parentPageId := none
    pageTitle := some "A", generationMode := "single", numberedCount := 6
    weeklyCount := 0, monthlyCount := 0, quarterlyCount := 0
    pageOrganization := "create-child", newParentTitle := none
    weeklyStartMonth := "", weeklyStartDay := none, weeklyStartYear := 0
    monthlyTargetMonth := "", monthlyTargetYear := 0
    quarterlyStartQuarter := "", quarterlyTargetYear := 0 }

/-- Claim C2 fails on `bulkGeneratePagesWithProgress`: with an unresolvable
container key the run does NOT fail — it issues both child create requests
(with an undefined `spaceId`) and returns a success report, because the
`if (!numericSpaceId) throw` guard present in `bulkGeneratePages`
(`src/index.js` 319–321, second conjunct) is missing from the
`bulkGeneratePagesWithProgress` variant. -/
theorem c2_unresolved_space_divergence :
    ((bulkGeneratePagesWithProgress unresolvableEnv unresolvableNewPayload).result =
        Except.ok
          { createdCount := 2, errorCount := 0
            pages := [{ id := "p0", title := "A", url := "u" },
                      { id := "p1", title := "B", url := "u" }]
            errors := [], totalRequested := 2, batchCount := 2, batchSize := 1 } ∧
      (bulkGeneratePagesWithProgress unresolvableEnv unresolvableNewPayload).childRequests =
        [{ spaceId := none, title := "A", parentId := none, body := "<p>c</p>" },
         { spaceId := none, title := "B", parentId := none, body := "<p>c</p>" }]) ∧
    ((bulkGeneratePages unresolvableEnv unresolvableOldPayload).result =
        Except.error "Could not resolve numeric space ID for space: S" ∧
      (bulkGeneratePages unresolvableEnv unresolvableOldPayload).parentRequests = [] ∧
      (bulkGeneratePages unresolvableEnv unresolvableOldPayload).childRequests = []) :=
  ⟨⟨rfl, rfl⟩, rfl, rfl, rfl⟩

/-! ## Exhaustive crawl (`getAllPagesOptimized`, unnamed module lines 191–331)

The store's successive responses to one listing are modelled as a finite
trace (`List ListResp`), consumed in request order: a real run consumes
finitely many responses, so every run is a run over some trace.  Termination
of the loops as such is the subject of C8, where the store is instead an
unbounded oracle and the loop carries explicit fuel. -/

/-- A space as consumed by the crawl. -/
structure Space where
  key : String
  name : String
  id : Nat
  deriving DecidableEq, Repr

/-- A page item of a list response (with the already-extracted
`version?.when || createdAt || 'Unknown'` value). -/
structure Page where
  id : String
  title : String
  lastModified : String
  deriving DecidableEq, Repr

/-- A crawled page annotated with its space's key and name. -/
structure CrawlPage where
  id : String
  title : String
  spaceKey : String
  spaceName : String
  lastModified : String
  deriving DecidableEq, Repr

/-- One response to a page-list request: 2xx with results and a `_links.next`
flag, non-2xx, or a thrown error. -/
inductive ListResp where
  | ok : List Page → Bool → ListResp
  | errStatus : Nat → ListResp
  | raise : String → ListResp
  deriving DecidableEq, Repr

/-- The `filter`/`map` applied to one batch (lines 277–285): drop pages
titled like the space, annotate the rest. -/
def mapNewPages (sp : Space) (results : List Page) : List CrawlPage :=
  (results.filter (fun pg => pg.title != sp.name && pg.title != sp.key)).map
    (fun pg => { id := pg.id, title := pg.title, spaceKey := sp.key,
                 spaceName := sp.name, lastModified := pg.lastModified })

/-- The inner `while (pageMore)` loop for one space (lines 258–302).  `glen`
is `allPages.length`, which does NOT change during this loop (batches
accumulate in `spacePages`), so the in-loop cap check compares against a
stale count.  A non-2xx response breaks the loop keeping the partial
`spacePages`; a thrown error (`none`) aborts to the outer catch, discarding
this space's pages. -/
def spacePagesInner (sp : Space) (glen : Nat) : List ListResp → Option (List CrawlPage)
  | [] => some []
  | r :: rest =>
    if 5000 ≤ glen then some []
    else
      match r with
      | ListResp.raise _ => none
      | ListResp.errStatus _ => some []
      | ListResp.ok results hasNext =>
        let newPages := mapNewPages sp results
        if hasNext && !newPages.isEmpty then
          (spacePagesInner sp glen rest).map (fun more => newPages ++ more)
        else some newPages

/-- The outer `for (const space of spaces)` loop (lines 243–311): stop before
a space once the global count reached `PAGE_LIMIT = 5000`; per-space
failures do not abort the loop. -/
def crawlSpacesLoop (store : Space → List ListResp) :
    List Space → List CrawlPage → List CrawlPage
  | [], acc => acc
  | sp :: rest, acc =>
    if 5000 ≤ acc.length then acc
    else
      match spacePagesInner sp acc.length (store sp) with
      | some pages => crawlSpacesLoop store rest (acc ++ pages)
      | none => crawlSpacesLoop store rest acc

/-- The document-collection phase of `getAllPagesOptimized`: all pages
accumulated over the given spaces. -/
def getAllPagesOptimizedPages (store : Space → List ListResp)
    (spaces : List Space) : List CrawlPage :=
  crawlSpacesLoop store spaces []

theorem crawlSpacesLoop_nil (store : Space → List ListResp) (acc : List CrawlPage) :
    crawlSpacesLoop store [] acc = acc := rfl

theorem crawlSpacesLoop_cons_some (store : Space → List ListResp) (sp : Space)
    (rest : List Space) (acc : List CrawlPage) (pages : List CrawlPage)
    (hacc : ¬ 5000 ≤ acc.length)
    (hinner : spacePagesInner sp acc.length (store sp) = some pages) :
    crawlSpacesLoop store (sp :: rest) acc = crawlSpacesLoop store rest (acc ++ pages) := by
  simp only [crawlSpacesLoop]
  rw [if_neg hacc, hinner]

/-! ### C4: the global cap is only checked at space boundaries -/

/-- A single space whose listing yields 101 batches of 50 pages. -/
def wideSpace : Space := { key := "K", name := "N", id := 1 }

/-- A 50-page batch (titles distinct from the space's name and key). -/
def wideBatch : List Page :=
  (List.range 50).map
    (fun i => { id := toString i, title := "t" ++ toString i, lastModified := "m" })

/-- The response trace: 100 full batches with a next link, then a final one. -/
def wideStore : Space → List ListResp :=
  fun _ => List.replicate 100 (ListResp.ok wideBatch true) ++ [ListResp.ok wideBatch false]

theorem spacePagesInner_replicate (sp : Space) (glen : Nat) (hg : glen < 5000)
    (b : List Page) (hb : (mapNewPages sp b).isEmpty = false) :
    ∀ n : Nat,
      spacePagesInner sp glen
          (List.replicate n (ListResp.ok b true) ++ [ListResp.ok b false]) =
        some (List.replicate (n + 1) (mapNewPages sp b)).flatten := by
  intro n
  induction n with
  | zero =>
    simp only [List.replicate, List.nil_append, spacePagesInner,
      if_neg (by omega : ¬ 5000 ≤ glen)]
    simp
  | succ n ih =>
    rw [List.replicate_succ, List.cons_append]
    simp only [spacePagesInner]
    rw [if_neg (Nat.not_le.mpr hg)]
    simp only [hb, Bool.not_false, Bool.true_and, if_true]
    rw [ih]
    simp [List.replicate_succ, List.flatten_cons]

/-- Claim C4 fails on the code: the in-loop cap check compares the stale
`allPages.length` (pages accumulate in `spacePages` and are flushed into
`allPages` only after a space finishes), so a single space's pagination never
stops at the cap.  With one space serving 101 batches of 50 pages the crawl
returns 5050 documents, exceeding `maxDocuments = 5000`.  The cap is only
effective between spaces. -/
theorem c4_cap_overrun_code_bug :
    (getAllPagesOptimizedPages wideStore [wideSpace]).length = 5050 ∧
    5000 < (getAllPagesOptimizedPages wideStore [wideSpace]).length := by
  have hb : (mapNewPages wideSpace wideBatch).isEmpty = false := by decide
  have hlen : (mapNewPages wideSpace wideBatch).length = 50 := by decide
  have h := spacePagesInner_replicate wideSpace 0 (by norm_num) wideBatch hb 100
  have hmain : (getAllPagesOptimizedPages wideStore [wideSpace]).length = 5050 := by
    unfold getAllPagesOptimizedPages
    rw [crawlSpacesLoop_cons_some wideStore wideSpace [] []
      (List.replicate 101 (mapNewPages wideSpace wideBatch)).flatten (by simp) h]
    rw [crawlSpacesLoop_nil, List.nil_append, List.length_flatten, List.map_replicate,
      hlen, List.sum_replicate, smul_eq_mul]
  exact ⟨hmain, by rw [hmain]; norm_num⟩

/-! ### C7: per-space failures do not abort the crawl -/

/-- Claim C7: (a) whatever the store does, the crawl only ever extends what
it has already collected (documents from earlier spaces are never
discarded); (b) when one space's first page-list call fails — non-2xx or
thrown — the loop simply continues with the remaining spaces. -/
theorem c7_failure_isolation :
    (∀ (store : Space → List ListResp) (spaces : List Space) (acc : List CrawlPage),
      acc <+: crawlSpacesLoop store spaces acc) ∧
    (∀ (store : Space → List ListResp) (sp : Space) (rest : List Space)
        (acc : List CrawlPage),
      acc.length < 5000 →
      ((∃ st tail, store sp = ListResp.errStatus st :: tail) ∨
        (∃ m tail, store sp = ListResp.raise m :: tail)) →
      crawlSpacesLoop store (sp :: rest) acc = crawlSpacesLoop store rest acc) := by
  constructor
  · intro store spaces
    induction spaces with
    | nil => intro acc; exact List.prefix_refl acc
    | cons sp rest ih =>
      intro acc
      simp only [crawlSpacesLoop]
      split
      · exact List.prefix_refl acc
      · split
        · exact (List.prefix_append acc _).trans (ih _)
        · exact ih acc
  · intro store sp rest acc hacc hfail
    simp only [crawlSpacesLoop]
    rw [if_neg (by omega)]
    rcases hfail with ⟨st, tail, hs⟩ | ⟨m, tail, hs⟩
    · rw [hs]
      simp only [spacePagesInner]
      rw [if_neg (by omega)]
      simp
    · rw [hs]
      simp only [spacePagesInner]
      rw [if_neg (by omega)]

/-- Two spaces; the first's page listing returns HTTP 404, the second's
returns one page. -/
def twoSpaceStore : Space → List ListResp :=
  fun sp =>
    if sp.id = 1 then [ListResp.errStatus 404]
    else [ListResp.ok [{ id := "p1", title := "T1", lastModified := "m" }] false]

/-- Claim C7 witness: the crawl skips the failing space and still collects
the other space's page. -/
theorem c7_failure_isolation_witness :
    crawlSpacesLoop twoSpaceStore [{ key := "A", name := "SpaceA", id := 1 },
        { key := "B", name := "SpaceB", id := 2 }] [] =
      crawlSpacesLoop twoSpaceStore [{ key := "B", name := "SpaceB", id := 2 }] [] ∧
    ([] : List CrawlPage) <+:
      crawlSpacesLoop twoSpaceStore [{ key := "B", name := "SpaceB", id := 2 }] [] ∧
    crawlSpacesLoop twoSpaceStore [{ key := "B", name := "SpaceB", id := 2 }] [] =
      [{ id := "p1", title := "T1", spaceKey := "B", spaceName := "SpaceB",
         lastModified := "m" }] :=
  ⟨c7_failure_isolation.2 twoSpaceStore { key := "A", name := "SpaceA", id := 1 }
      [{ key := "B", name := "SpaceB", id := 2 }] [] (by decide)
      (Or.inl ⟨404, [], rfl⟩),
    c7_failure_isolation.1 twoSpaceStore
      [{ key := "B", name := "SpaceB", id := 2 }] [],
    rfl⟩

/-! ## Cursor-pagination termination (C8)

For the termination claim the store is an unbounded oracle
(`Nat → response`, indexed by batch number) and each loop carries explicit
fuel; `loop fuel i = none` means the fuel ran out before the loop finished.
Termination on a termination signal is the statement that enough fuel always
exists once some batch carries a signal.  Both loops share the shape of
`getSpacePages` (unnamed module lines 138–176) and the space-listing loop of
`getAllPagesOptimized` (lines 202–234): continue exactly when the response
has a `_links.next` AND the (filtered) batch is non-empty. -/

/-- A page record as assembled by `getSpacePages`. -/
structure SpacePageRec where
  id : String
  title : String
  spaceKey : String
  lastModified : String
  deriving DecidableEq, Repr

/-- The `while (more)` page loop of `getSpacePages`: filter out pages titled
like the space key, stop on `¬hasNext`, an empty (filtered) batch, or a
non-2xx/thrown response (which the enclosing handler turns into an error). -/
def getSpacePagesLoop (store : Nat → ListResp) (actualSpaceKey : String) :
    Nat → Nat → Option (Except String (List SpacePageRec))
  | 0, _ => none
  | fuel + 1, batchIdx =>
    match store batchIdx with
    | ListResp.errStatus st => some (Except.error ("Pages failed: " ++ toString st))
    | ListResp.raise m => some (Except.error m)
    | ListResp.ok results hasNext =>
      let newPages := (results.filter (fun pg => pg.title != actualSpaceKey)).map
        (fun pg => { id := pg.id, title := pg.title, spaceKey := actualSpaceKey,
                     lastModified := pg.lastModified : SpacePageRec })
      if hasNext && !newPages.isEmpty then
        (getSpacePagesLoop store actualSpaceKey fuel (batchIdx + 1)).map
          (fun res => res.map (fun more => newPages ++ more))
      else some (Except.ok newPages)

/-- One response to a space-list request. -/
inductive SpacesResp where
  | ok : List Space → Bool → SpacesResp
  | errStatus : Nat → SpacesResp
  | raise : String → SpacesResp
  deriving DecidableEq, Repr

/-- The `while (more)` space-listing loop of `getAllPagesOptimized`. -/
def spacesListLoop (store : Nat → SpacesResp) :
    Nat → Nat → Option (Except String (List Space))
  | 0, _ => none
  | fuel + 1, batchIdx =>
    match store batchIdx with
    | SpacesResp.errStatus st =>
        some (Except.error ("Spaces API failed: " ++ toString st))
    | SpacesResp.raise m => some (Except.error m)
    | SpacesResp.ok results hasNext =>
      let newSpaces := results
      if hasNext && !newSpaces.isEmpty then
        (spacesListLoop store fuel (batchIdx + 1)).map
          (fun res => res.map (fun more => newSpaces ++ more))
      else some (Except.ok newSpaces)

theorem option_map_ne_none {α β : Type} (f : α → β) (o : Option α) (h : o ≠ none) :
    Option.map f o ≠ none := by
  cases o with
  | none => exact absurd rfl h
  | some a => simp

/-- One unfolding of the page loop on a 2xx response. -/
theorem getSpacePagesLoop_ok (store : Nat → ListResp) (key : String) (fuel i : Nat)
    (results : List Page) (hasNext : Bool) (hr : store i = ListResp.ok results hasNext) :
    getSpacePagesLoop store key (fuel + 1) i =
      (if hasNext && !((results.filter (fun pg => pg.title != key)).map
            (fun pg => { id := pg.id, title := pg.title, spaceKey := key,
                         lastModified := pg.lastModified : SpacePageRec })).isEmpty then
        (getSpacePagesLoop store key fuel (i + 1)).map
          (fun res => res.map (fun more =>
            (results.filter (fun pg => pg.title != key)).map
              (fun pg => { id := pg.id, title := pg.title, spaceKey := key,
                           lastModified := pg.lastModified }) ++ more))
      else some (Except.ok ((results.filter (fun pg => pg.title != key)).map
        (fun pg => { id := pg.id, title := pg.title, spaceKey := key,
                     lastModified := pg.lastModified })))) := by
  simp only [getSpacePagesLoop, hr]

/-- One unfolding of the space-listing loop on a 2xx response. -/
theorem spacesListLoop_ok (store : Nat → SpacesResp) (fuel i : Nat)
    (results : List Space) (hasNext : Bool) (hr : store i = SpacesResp.ok results hasNext) :
    spacesListLoop store (fuel + 1) i =
      (if hasNext && !results.isEmpty then
        (spacesListLoop store fuel (i + 1)).map
          (fun res => res.map (fun more => results ++ more))
      else some (Except.ok results)) := by
  simp only [spacesListLoop, hr]

/-- A page-list response carrying a termination signal: no next link, or an
empty result page (even with the next link still set), or a failure. -/
def pageRespStops : ListResp → Prop
  | ListResp.ok results hasNext => hasNext = false ∨ results = []
  | ListResp.errStatus _ => True
  | ListResp.raise _ => True

/-- A space-list response carrying a termination signal. -/
def spacesRespStops : SpacesResp → Prop
  | SpacesResp.ok results hasNext => hasNext = false ∨ results = []
  | SpacesResp.errStatus _ => True
  | SpacesResp.raise _ => True

/-- Claim C8: each pagination loop terminates as soon as any batch carries a
termination signal — `n + 1` iterations of fuel suffice when batch `i + n`
signals, in particular when the store returns an empty page without clearing
the next cursor. -/
theorem c8_pagination_loops_terminate :
    (∀ (store : Nat → ListResp) (key : String) (n i : Nat),
      pageRespStops (store (i + n)) →
      getSpacePagesLoop store key (n + 1) i ≠ none) ∧
    (∀ (store : Nat → SpacesResp) (n i : Nat),
      spacesRespStops (store (i + n)) →
      spacesListLoop store (n + 1) i ≠ none) := by
  constructor
  · intro store key n
    induction n with
    | zero =>
      intro i hsig
      rw [Nat.add_zero] at hsig
      cases hr : store i with
      | errStatus st => simp [getSpacePagesLoop, hr]
      | raise m => simp [getSpacePagesLoop, hr]
      | ok results hasNext =>
        rw [hr] at hsig
        simp only [getSpacePagesLoop, hr]
        rcases hsig with h1 | h1
        · subst h1; simp
        · subst h1; simp
    | succ n ih =>
      intro i hsig
      cases hr : store i with
      | errStatus st => simp [getSpacePagesLoop, hr]
      | raise m => simp [getSpacePagesLoop, hr]
      | ok results hasNext =>
        rw [getSpacePagesLoop_ok store key (n + 1) i results hasNext hr]
        split
        · apply option_map_ne_none
          apply ih
          have harr : i + 1 + n = i + (n + 1) := by omega
          rw [harr]
          exact hsig
        · simp
  · intro store n
    induction n with
    | zero =>
      intro i hsig
      rw [Nat.add_zero] at hsig
      cases hr : store i with
      | errStatus st => simp [spacesListLoop, hr]
      | raise m => simp [spacesListLoop, hr]
      | ok results hasNext =>
        rw [hr] at hsig
        simp only [spacesListLoop, hr]
        rcases hsig with h1 | h1
        · subst h1; simp
        · subst h1; simp
    | succ n ih =>
      intro i hsig
      cases hr : store i with
      | errStatus st => simp [spacesListLoop, hr]
      | raise m => simp [spacesListLoop, hr]
      | ok results hasNext =>
        rw [spacesListLoop_ok store (n + 1) i results hasNext hr]
        split
        · apply option_map_ne_none
          apply ih
          have harr : i + 1 + n = i + (n + 1) := by omega
          rw [harr]
          exact hsig
        · simp

/-- A store that answers every page-list request after the first with an
empty page whose next cursor is still set. -/
def emptyButNextStore : Nat → ListResp :=
  fun i =>
    if i = 0 then ListResp.ok [{ id := "p", title := "T", lastModified := "m" }] true
    else ListResp.ok [] true

/-- A space store with the same shape. -/
def emptyButNextSpacesStore : Nat → SpacesResp :=
  fun i =>
    if i = 0 then SpacesResp.ok [{ key := "K", name := "N", id := 7 }] true
    else SpacesResp.ok [] true

/-- Claim C8 witness: both loops finish against a store that returns an
empty page without clearing the cursor. -/
theorem c8_pagination_loops_terminate_witness :
    getSpacePagesLoop emptyButNextStore "K" 2 0 ≠ none ∧
      spacesListLoop emptyButNextSpacesStore 2 0 ≠ none :=
  ⟨c8_pagination_loops_terminate.1 emptyButNextStore "K" 1 0 (Or.inr rfl),
    c8_pagination_loops_terminate.2 emptyButNextSpacesStore 1 0 (Or.inr rfl)⟩

/-! ## Template capture (`uploadTemplate`, unnamed module lines 611–701)

The URL patterns are modelled as first-match scans over the character list,
mirroring the JS regexes `/\/pages\/(\d+)/`, `/\/pages\/edit-v2\/(\d+)/`,
`/\/pages\/viewpage\.action\?pageId=(\d+)/` and `/[?&]pageId=(\d+)/`
tried in that order. -/

/-- Strip a literal from the front of a character list. -/
def stripLit : List Char → List Char → Option (List Char)
  | [], s => some s
  | _ :: _, [] => none
  | p :: ps, c :: cs => if p = c then stripLit ps cs else none

/-- The digits captured by `lit(\d+)` at the first position where the
literal is followed by at least one digit. -/
def scanLitDigits (lit : List Char) : List Char → Option (List Char)
  | [] => none
  | c :: cs =>
    match stripLit lit (c :: cs) with
    | some rest =>
      let ds := rest.takeWhile Char.isDigit
      if ds.isEmpty then scanLitDigits lit cs else some ds
    | none => scanLitDigits lit cs

/-- The digits captured by `[?&]pageId=(\d+)` at its first match. -/
def scanQueryPageId : List Char → Option (List Char)
  | [] => none
  | c :: cs =>
    if c = '?' ∨ c = '&' then
      match stripLit "pageId=".data cs with
      | some rest =>
        let ds := rest.takeWhile Char.isDigit
        if ds.isEmpty then scanQueryPageId cs else some ds
      | none => scanQueryPageId cs
    else scanQueryPageId cs

/-- The `for (const pattern of patterns)` extraction: first matching pattern
wins. -/
def extractPageId (url : String) : Option String :=
  match scanLitDigits "/pages/".data url.data with
  | some ds => some (String.mk ds)
  | none =>
    match scanLitDigits "/pages/edit-v2/".data url.data with
    | some ds => some (String.mk ds)
    | none =>
      match scanLitDigits "/pages/viewpage.action?pageId=".data url.data with
      | some ds => some (String.mk ds)
      | none =>
        match scanQueryPageId url.data with
        | some ds => some (String.mk ds)
        | none => none

/-- The page fields `uploadTemplate` reads from the fetch response. -/
structure PageData where
  title : String
  spaceId : String
  content : String
  deriving DecidableEq, Repr

/-- Response to the page-content fetch. -/
inductive FetchResult where
  | ok : PageData → FetchResult
  | fail : Nat → String → FetchResult
  | raise : String → FetchResult
  deriving DecidableEq, Repr

/-- The oracles `uploadTemplate` consults: the page fetch, plus the
`Date.now()`/`Math.random()` suffix and ISO timestamp made explicit. -/
structure UploadEnv where
  getPage : String → FetchResult
  freshSuffix : String
  nowIso : String

/-- The template object persisted into Forge storage. -/
structure StoredTemplate where
  id : String
  name : String
  sourcePageId : String
  sourcePageTitle : String
  sourceSpaceKey : String
  content : String
  createdAt : String
  type : String
  deriving DecidableEq, Repr

/-- The non-bulky subset returned to the caller. -/
structure TemplateSummary where
  id : String
  name : String
  sourcePageTitle : String
  createdAt : String
  deriving DecidableEq, Repr

/-- Result of `uploadTemplate`: success with the stored template and the
returned summary, or `{success: false, error}`. -/
inductive UploadResult where
  | ok : StoredTemplate → TemplateSummary → UploadResult
  | err : String → UploadResult
  deriving DecidableEq, Repr

/-- `uploadTemplate` (unnamed module lines 611–701, identical in
`src/index.js` 141–231): a truthy `pageId` is used as-is; only otherwise is
a URL parsed; then the page is fetched, the template assembled and stored. -/
def uploadTemplate (env : UploadEnv) (url pageId name : Option String) :
    UploadResult :=
  let finalPageId : Option String :=
    if jsTruthy pageId then pageId
    else if jsTruthy url && (jsTrim (url.getD "") != "") then
      match extractPageId (url.getD "") with
      | some d => some d
      | none => pageId
    else pageId
  if !jsTruthy finalPageId then
    UploadResult.err
      (if jsTruthy url then
        "Could not extract page ID from URL. Please use a direct Confluence page URL."
      else "Page ID or URL is required")
  else
    match env.getPage (finalPageId.getD "") with
    | FetchResult.fail st txt =>
        UploadResult.err
          ("Failed to fetch page content: " ++ toString st ++ " - " ++ txt)
    | FetchResult.raise m => UploadResult.err m
    | FetchResult.ok pd =>
      let finalTemplateName :=
        if jsTruthy name && (jsTrim (name.getD "") != "") then jsTrim (name.getD "")
        else if pd.title != "" then pd.title else "Cloned Page"
      let templateId := "user_" ++ env.freshSuffix
      UploadResult.ok
        { id := templateId, name := finalTemplateName,
          sourcePageId := finalPageId.getD "", sourcePageTitle := pd.title,
          sourceSpaceKey := pd.spaceId, content := pd.content,
          createdAt := env.nowIso, type := "user_uploaded" }
        { id := templateId, name := finalTemplateName,
          sourcePageTitle := pd.title, createdAt := env.nowIso }

/-- Claim C10: a truthy direct `pageId` takes precedence — for every value of
the `url` argument, the result is the one of calling capture with the page
id alone; the URL is never parsed. -/
theorem c10_direct_id_precedence (env : UploadEnv) (u : Option String)
    (pid : String) (hp : pid ≠ "") (name : Option String) :
    uploadTemplate env u (some pid) name = uploadTemplate env none (some pid) name := by
  unfold uploadTemplate
  have hT : jsTruthy (some pid) = true := by simp [jsTruthy, hp]
  simp [hT]

/-- Claim C10 witness: a URL pointing at a different page is ignored when a
direct id is supplied. -/
theorem c10_direct_id_precedence_witness :
    ("123" : String) ≠ "" ∧
      uploadTemplate
          { getPage := fun i => FetchResult.ok
              { title := "T" ++ i, spaceId := "S", content := "<p>b</p>" },
            freshSuffix := "f", nowIso := "now" }
          (some "https://x.atlassian.net/wiki/spaces/S/pages/999/Other") (some "123") none =
        uploadTemplate
          { getPage := fun i => FetchResult.ok
              { title := "T" ++ i, spaceId := "S", content := "<p>b</p>" },
            freshSuffix := "f", nowIso := "now" }
          none (some "123") none :=
  ⟨by decide,
    c10_direct_id_precedence
      { getPage := fun i => FetchResult.ok
          { title := "T" ++ i, spaceId := "S", content := "<p>b</p>" },
        freshSuffix := "f", nowIso := "now" }
      (some "https://x.atlassian.net/wiki/spaces/S/pages/999/Other") "123" (by decide) none⟩

end BulkPageCloner
